import Mathlib

/-!
Verification of the backend-resolution layer of restic (package
`internal/backend/location` plus the backend factory file): scheme
disambiguation (`isPath`), location parsing (`parseLocation`,
`extractScheme`, `StripPassword`), credential/option resolution
(`parseConfig`) and the rate-limited factory (`Open`).

Strings are modelled as lists of characters (`Str`).  Backend
collaborators (the per-backend `ParseConfig` / `Open` functions, the
options applicator, `backend.Transport`, `swift.ApplyEnvironment`) are
not part of this repository slice; they are abstract function
parameters collected in a `Collab` structure, so every theorem
quantifies over their behaviour unless it instantiates them concretely.
-/

namespace Restic

-- Decidable equality for `Except`, used to evaluate concrete runs.
deriving instance DecidableEq for Except

/-- Go strings, modelled as lists of characters. -/
abbrev Str : Type := List Char

/-- Conversion from Lean string literals. -/
def str (s : String) : Str := s.data

/-- `hasPre p s` is Go's `strings.HasPrefix(s, p)`. -/
def hasPre : Str → Str → Bool
  | [], _ => true
  | _ :: _, [] => false
  | p :: ps, c :: cs => p == c && hasPre ps cs

/-- `hasSub s p` is Go's `strings.Contains(s, p)`: `p` occurs as a
contiguous substring of `s`. -/
def hasSub : Str → Str → Bool
  | [], p => hasPre p []
  | c :: t, p => hasPre p (c :: t) || hasSub t p

/-- `internal/backend/location/location.go`, `isPath`: decides whether a
location string is a filesystem path (relative parent marker, absolute
marker, or a drive path of length at least 3). -/
def isPath (s : Str) : Bool :=
  if hasPre (str "../") s || hasPre (str "..\\") s then true
  else if hasPre (str "/") s || hasPre (str "\\") s then true
  else if s.length < 3 then false
  else
    let drive := s.headD ' '
    if !('a' ≤ drive && drive ≤ 'z') && !('A' ≤ drive && drive ≤ 'Z') then false
    else if !(s.getD 1 ' ' == ':') then false
    else if !(s.getD 2 ' ' == '\\') && !(s.getD 2 ' ' == '/') then false
    else true

/-- The specification's characterization of `isPath` (claim C5): the
string starts with `../`, `..\`, `/` or `\`, or it has length at least 3
and starts with an ASCII drive letter, a colon and a path separator. -/
def isPathSpec (s : Str) : Bool :=
  hasPre (str "../") s || hasPre (str "..\\") s ||
  hasPre (str "/") s || hasPre (str "\\") s ||
  (match s with
   | a :: b :: c :: _ =>
       (('a' ≤ a && a ≤ 'z') || ('A' ≤ a && a ≤ 'Z')) && b == ':' && (c == '/' || c == '\\')
   | _ => false)

theorem str_parentSlash : str "../" = ['.', '.', '/'] := rfl

theorem str_parentBack : str "..\\" = ['.', '.', '\\'] := rfl

theorem str_slash : str "/" = ['/'] := rfl

theorem str_back : str "\\" = ['\\'] := rfl

set_option maxHeartbeats 1000000 in
/-- C5: `isPath` returns true exactly on the strings described by the
spec: those starting with `../`, `..\`, `/` or `\`, and those of length
at least 3 whose first three characters are an ASCII letter, `:` and a
path separator; in particular drive-letter-like strings of length < 3
are rejected. -/
theorem c5_isPath_characterization (s : Str) : isPath s = isPathSpec s := by
  rw [Bool.eq_iff_iff]
  match s with
  | [] => decide
  | [a] =>
      simp only [isPath, isPathSpec, str_parentSlash, str_parentBack, str_slash, str_back,
        hasPre, List.length, List.headD, List.getD]
      split_ifs <;>
        simp_all only [Bool.or_eq_true, Bool.and_eq_true, Bool.or_eq_false_iff,
          Bool.and_eq_false_iff, Bool.not_eq_true', Bool.not_eq_true, Bool.not_eq_false',
          decide_eq_true_eq, decide_eq_false_iff_not, beq_iff_eq, beq_eq_false_iff_ne,
          ne_eq, not_true, not_false_iff, iff_true, true_iff, iff_false, false_iff] <;>
        tauto
  | [a, b] =>
      simp only [isPath, isPathSpec, str_parentSlash, str_parentBack, str_slash, str_back,
        hasPre, List.length, List.headD, List.getD]
      split_ifs <;>
        simp_all only [Bool.or_eq_true, Bool.and_eq_true, Bool.or_eq_false_iff,
          Bool.and_eq_false_iff, Bool.not_eq_true', Bool.not_eq_true, Bool.not_eq_false',
          decide_eq_true_eq, decide_eq_false_iff_not, beq_iff_eq, beq_eq_false_iff_ne,
          ne_eq, not_true, not_false_iff, iff_true, true_iff, iff_false, false_iff] <;>
        tauto
  | a :: b :: c :: t =>
      simp only [isPath, isPathSpec, str_parentSlash, str_parentBack, str_slash, str_back,
        hasPre, List.length, List.headD, List.getD]
      have hlen : ¬ ((t.length + 1 + 1 + 1 : Nat) < 3) := by omega
      split_ifs <;>
        simp_all only [Bool.or_eq_true, Bool.and_eq_true, Bool.or_eq_false_iff,
          Bool.and_eq_false_iff, Bool.not_eq_true', Bool.not_eq_true, Bool.not_eq_false',
          decide_eq_true_eq, decide_eq_false_iff_not, beq_iff_eq, beq_eq_false_iff_ne,
          ne_eq, not_true, not_false_iff, iff_true, true_iff, iff_false, false_iff] <;>
        tauto

/-- `extractScheme`: `strings.SplitN(s, ":", 2)` and take the first
component, i.e. everything before the first `:` (the whole string when
there is no colon). -/
def extractScheme (s : Str) : Str := s.takeWhile (fun c => !(c == ':'))

/-- `local.Config` (collaborator-defined; only carried opaquely here). -/
structure LocalConfig where
  Path : Str
  deriving DecidableEq

/-- `sftp.Config` (collaborator-defined; carried opaquely). -/
structure SftpConfig where
  User : Str
  Host : Str
  Path : Str
  deriving DecidableEq

/-- `s3.Config`: the fields read by `parseConfig` plus an opaque rest. -/
structure S3Config where
  KeyID : Str
  Secret : Str
  Region : Str
  Data : Str
  deriving DecidableEq

/-- `gs.Config`: the field read by `parseConfig` plus an opaque rest. -/
structure GsConfig where
  ProjectID : Str
  Data : Str
  deriving DecidableEq

/-- `azure.Config`: the fields read by `parseConfig` plus an opaque rest. -/
structure AzureConfig where
  AccountName : Str
  AccountKey : Str
  Data : Str
  deriving DecidableEq

/-- `swift.Config` (opaque: `parseConfig` only hands it to collaborators). -/
structure SwiftConfig where
  Data : Str
  deriving DecidableEq

/-- `b2.Config`: the fields read by `parseConfig` plus an opaque rest. -/
structure B2Config where
  AccountID : Str
  Key : Str
  Data : Str
  deriving DecidableEq

/-- `rest.Config` (opaque). -/
structure RestConfig where
  URL : Str
  deriving DecidableEq

/-- `rclone.Config` (opaque). -/
structure RcloneConfig where
  Remote : Str
  deriving DecidableEq

/-- The `interface{}` value held in a `location`: a backend-specific
config, tagged by which backend produced it (Go type assertions
`loc.Config.(x.Config)` become matches on this sum). -/
inductive Config
  | localC (c : LocalConfig)
  | sftpC (c : SftpConfig)
  | s3C (c : S3Config)
  | gsC (c : GsConfig)
  | azureC (c : AzureConfig)
  | swiftC (c : SwiftConfig)
  | b2C (c : B2Config)
  | restC (c : RestConfig)
  | rcloneC (c : RcloneConfig)
  deriving DecidableEq

/-- The `location` struct: scheme plus the backend config; the Go zero
value (returned on every error path) has empty scheme and nil config. -/
structure Location where
  Scheme : Str
  Config : Option Config
  deriving DecidableEq

/-- `limiter.Limits` (upload/download KiB per second). -/
structure Limits where
  UploadKB : Int
  DownloadKB : Int
  deriving DecidableEq

/-- `backend.TransportOptions`, opaque to this layer. -/
abbrev TrOpts : Type := Str

/-- An `http.RoundTripper` as visible to this layer: Go's nil, the
transport built by the `backend.Transport` collaborator, or a transport
wrapped by `lim.Transport` (the static limiter built from `Limits`). -/
inductive RT
  | nilRT
  | base (t : TrOpts)
  | limited (l : Limits) (inner : RT)
  deriving DecidableEq

/-- A `restic.Backend` handle: either a value produced by a backend
collaborator, or a handle wrapped by `limiter.LimitBackend`. -/
inductive Handle
  | mk (tag : Str)
  | limitBackend (inner : Handle) (l : Limits)
  deriving DecidableEq

/-- Errors visible at this layer.  `fatal` is `errors.Fatalf`; `collab`
is a collaborator error returned/propagated unchanged; `invalidBackend`
is the `errors.Fatalf("invalid backend: %q", scheme)` default branch,
kept as its own constructor so reachability of that branch is a
provable property; `assertFail` models the Go panic of a failed
interface type assertion (which unwinds rather than being wrapped). -/
inductive Err
  | fatal (msg : Str)
  | collab (msg : Str)
  | invalidBackend (scheme : Str)
  | assertFail (msg : Str)
  deriving DecidableEq

/-- Whether an error is fatal (`errors.Fatalf` produced it). -/
def Err.isFatal : Err → Bool
  | .fatal _ => true
  | .invalidBackend _ => true
  | _ => false

/-- The human-readable message of an error (`err.Error()` in Go). -/
def Err.message : Err → Str
  | .fatal m => m
  | .collab m => m
  | .invalidBackend sch => str "invalid backend: \"" ++ sch ++ str "\""
  | .assertFail m => m

/-- The process environment: `os.Getenv` (empty string when unset). -/
abbrev Env : Type := Str → Str

/-- The backend collaborators and external packages this layer calls
into: the per-backend `ParseConfig`, `rest.StripPassword`, the options
applicator (`opts.Extract(scheme)` followed by `opts.Apply(scheme, &cfg)`
for the options of the one call, per backend config type),
`swift.ApplyEnvironment`, `backend.Transport`, and the per-backend
`Open` functions.  All are abstract: theorems quantify over them. -/
structure Collab where
  localParse : Str → Except Str LocalConfig
  sftpParse : Str → Except Str SftpConfig
  s3Parse : Str → Except Str S3Config
  gsParse : Str → Except Str GsConfig
  azureParse : Str → Except Str AzureConfig
  swiftParse : Str → Except Str SwiftConfig
  b2Parse : Str → Except Str B2Config
  restParse : Str → Except Str RestConfig
  rcloneParse : Str → Except Str RcloneConfig
  restStrip : Str → Str
  applyLocal : LocalConfig → Except Str LocalConfig
  applySftp : SftpConfig → Except Str SftpConfig
  applyS3 : S3Config → Except Str S3Config
  applyGs : GsConfig → Except Str GsConfig
  applyAzure : AzureConfig → Except Str AzureConfig
  applySwift : SwiftConfig → Except Str SwiftConfig
  applyB2 : B2Config → Except Str B2Config
  applyRest : RestConfig → Except Str RestConfig
  applyRclone : RcloneConfig → Except Str RcloneConfig
  swiftApplyEnv : SwiftConfig → Except Str SwiftConfig
  mkTransport : TrOpts → Except Str RT
  localOpen : LocalConfig → Except Str Handle
  sftpOpen : SftpConfig → Except Str Handle
  s3Open : S3Config → RT → Except Str Handle
  gsOpen : GsConfig → RT → Except Str Handle
  azureOpen : AzureConfig → RT → Except Str Handle
  swiftOpen : SwiftConfig → RT → Except Str Handle
  b2Open : B2Config → RT → Except Str Handle
  restOpen : RestConfig → RT → Except Str Handle
  rcloneOpen : RcloneConfig → Limits → Except Str Handle

/-- One entry of the parser table: scheme name, config parser, and the
password-stripping function for display. -/
structure ParserEntry where
  scheme : Str
  parse : Str → Except Str Config
  stripPassword : Str → Str

/-- `noPassword`: the location string is returned unchanged. -/
def noPassword (s : Str) : Str := s

/-- The parser table, in source order (`b2`, `local`, `sftp`, `s3`,
`gs`, `azure`, `swift`, `rest`, `rclone`); each backend parser's typed
config is wrapped into the `Config` sum, as Go wraps it into
`interface{}`.  Only `rest` has a nontrivial password stripper. -/
def parsers (cb : Collab) : List ParserEntry :=
  [⟨str "b2", fun s => (cb.b2Parse s).map Config.b2C, noPassword⟩,
   ⟨str "local", fun s => (cb.localParse s).map Config.localC, noPassword⟩,
   ⟨str "sftp", fun s => (cb.sftpParse s).map Config.sftpC, noPassword⟩,
   ⟨str "s3", fun s => (cb.s3Parse s).map Config.s3C, noPassword⟩,
   ⟨str "gs", fun s => (cb.gsParse s).map Config.gsC, noPassword⟩,
   ⟨str "azure", fun s => (cb.azureParse s).map Config.azureC, noPassword⟩,
   ⟨str "swift", fun s => (cb.swiftParse s).map Config.swiftC, noPassword⟩,
   ⟨str "rest", fun s => (cb.restParse s).map Config.restC, cb.restStrip⟩,
   ⟨str "rclone", fun s => (cb.rcloneParse s).map Config.rcloneC, noPassword⟩]

/-- The scheme names registered in the parser table, in table order. -/
def schemeNames : List Str :=
  [str "b2", str "local", str "sftp", str "s3", str "gs", str "azure",
   str "swift", str "rest", str "rclone"]

/-- The scheme-matching loop shared by `parseLocation` and
`StripPassword`: first table entry whose scheme equals the given one. -/
def findEntry : List ParserEntry → Str → Option ParserEntry
  | [], _ => none
  | p :: rest, scheme => if p.scheme == scheme then some p else findEntry rest scheme

/-- The Go zero value `location{}` returned on every error path. -/
def zeroLocation : Location := ⟨[], none⟩

/-- The ambiguous-location error text from `parseLocation`. -/
def ambiguousMsg : Str :=
  str "invalid backend\nIf the repo is in a local directory, you need to add a `local:` prefix"

/-- `parseLocation`, with Go's `(location, error)` pair return: extract
the scheme, try the matching table entry, otherwise fail if the string
is ambiguous (not a path but contains `:`), otherwise fall back to the
local backend on `"local:" + s`. -/
def parseLocationGo (cb : Collab) (s : Str) : Location × Option Str :=
  let scheme := extractScheme s
  match findEntry (parsers cb) scheme with
  | some p =>
      match p.parse s with
      | .error e => (zeroLocation, some e)
      | .ok c => ({ Scheme := scheme, Config := some c }, none)
  | none =>
      if !isPath s && s.elem ':' then (zeroLocation, some ambiguousMsg)
      else
        match cb.localParse (str "local:" ++ s) with
        | .error e => (zeroLocation, some e)
        | .ok c => ({ Scheme := str "local", Config := some (Config.localC c) }, none)

/-- `StripPassword`: displayable version of a location string; the
matching entry's stripper, or the string unchanged. -/
def StripPassword (cb : Collab) (s : Str) : Str :=
  match findEntry (parsers cb) (extractScheme s) with
  | some p => p.stripPassword s
  | none => s

/-- Environment variable names consulted by `parseConfig`. -/
def awsKeyVar : Str := str "AWS_ACCESS_KEY_ID"

def awsSecretVar : Str := str "AWS_SECRET_ACCESS_KEY"

def awsRegionVar : Str := str "AWS_DEFAULT_REGION"

def gsProjectVar : Str := str "GOOGLE_PROJECT_ID"

def azureNameVar : Str := str "AZURE_ACCOUNT_NAME"

def azureKeyVar : Str := str "AZURE_ACCOUNT_KEY"

def b2IDVar : Str := str "B2_ACCOUNT_ID"

def b2KeyVar : Str := str "B2_ACCOUNT_KEY"

/-- Credential error texts from `parseConfig`. -/
def s3KeyMsg : Str := str "unable to open S3 backend: Key ID ($AWS_ACCESS_KEY_ID) is empty"

def s3SecretMsg : Str := str "unable to open S3 backend: Secret ($AWS_SECRET_ACCESS_KEY) is empty"

def b2IDMsg : Str := str "unable to open B2 backend: Account ID ($B2_ACCOUNT_ID) is empty"

def b2KeyMsg : Str := str "unable to open B2 backend: Key ($B2_ACCOUNT_KEY) is empty"

/-- The `local` case body of `parseConfig`: apply options only. -/
def resolveLocal (cb : Collab) (c : LocalConfig) : Except Err Config :=
  match cb.applyLocal c with
  | .error e => .error (.collab e)
  | .ok c1 => .ok (Config.localC c1)

/-- The `sftp` case body of `parseConfig`: apply options only. -/
def resolveSftp (cb : Collab) (c : SftpConfig) : Except Err Config :=
  match cb.applySftp c with
  | .error e => .error (.collab e)
  | .ok c1 => .ok (Config.sftpC c1)

/-- `opts.Apply` for an s3 config followed by the `return cfg, nil`:
a collaborator error is returned unchanged, otherwise the applied
config is wrapped back into `interface{}`. -/
def applyS3Step (cb : Collab) (c : S3Config) : Except Err Config :=
  match cb.applyS3 c with
  | .error e => .error (.collab e)
  | .ok c4 => .ok (Config.s3C c4)

/-- `opts.Apply` for a gs config followed by the `return cfg, nil`. -/
def applyGsStep (cb : Collab) (c : GsConfig) : Except Err Config :=
  match cb.applyGs c with
  | .error e => .error (.collab e)
  | .ok c2 => .ok (Config.gsC c2)

/-- `opts.Apply` for an azure config followed by the `return cfg, nil`. -/
def applyAzureStep (cb : Collab) (c : AzureConfig) : Except Err Config :=
  match cb.applyAzure c with
  | .error e => .error (.collab e)
  | .ok c3 => .ok (Config.azureC c3)

/-- `opts.Apply` for a b2 config followed by the `return cfg, nil`. -/
def applyB2Step (cb : Collab) (c : B2Config) : Except Err Config :=
  match cb.applyB2 c with
  | .error e => .error (.collab e)
  | .ok c3 => .ok (Config.b2C c3)

/-- The `s3` case body of `parseConfig`: key-id and secret fall back to
`$AWS_ACCESS_KEY_ID` / `$AWS_SECRET_ACCESS_KEY` when empty; having
exactly one of the pair is a fatal error; region falls back to
`$AWS_DEFAULT_REGION`; then options are applied. -/
def resolveS3 (cb : Collab) (env : Env) (c0 : S3Config) : Except Err Config :=
  let c1 := if c0.KeyID.isEmpty then { c0 with KeyID := env awsKeyVar } else c0
  let c2 := if c1.Secret.isEmpty then { c1 with Secret := env awsSecretVar } else c1
  if c2.KeyID.isEmpty && !c2.Secret.isEmpty then .error (.fatal s3KeyMsg)
  else if !c2.KeyID.isEmpty && c2.Secret.isEmpty then .error (.fatal s3SecretMsg)
  else
    let c3 := if c2.Region.isEmpty then { c2 with Region := env awsRegionVar } else c2
    applyS3Step cb c3

/-- The `gs` case body of `parseConfig`: project id falls back to
`$GOOGLE_PROJECT_ID` when empty; then options are applied. -/
def resolveGs (cb : Collab) (env : Env) (c0 : GsConfig) : Except Err Config :=
  let c1 := if c0.ProjectID.isEmpty then { c0 with ProjectID := env gsProjectVar } else c0
  applyGsStep cb c1

/-- The `azure` case body of `parseConfig`: account name and key fall
back to `$AZURE_ACCOUNT_NAME` / `$AZURE_ACCOUNT_KEY` when empty; no
pair validation is performed; then options are applied. -/
def resolveAzure (cb : Collab) (env : Env) (c0 : AzureConfig) : Except Err Config :=
  let c1 := if c0.AccountName.isEmpty then { c0 with AccountName := env azureNameVar } else c0
  let c2 := if c1.AccountKey.isEmpty then { c1 with AccountKey := env azureKeyVar } else c1
  applyAzureStep cb c2

/-- The `swift` case body of `parseConfig`: `swift.ApplyEnvironment`
then options. -/
def resolveSwift (cb : Collab) (c0 : SwiftConfig) : Except Err Config :=
  match cb.swiftApplyEnv c0 with
  | .error e => .error (.collab e)
  | .ok c1 =>
      match cb.applySwift c1 with
      | .error e => .error (.collab e)
      | .ok c2 => .ok (Config.swiftC c2)

/-- The `b2` case body of `parseConfig`: account id falls back to
`$B2_ACCOUNT_ID` and must end up non-empty; key falls back to
`$B2_ACCOUNT_KEY` and must end up non-empty; then options. -/
def resolveB2 (cb : Collab) (env : Env) (c0 : B2Config) : Except Err Config :=
  let c1 := if c0.AccountID.isEmpty then { c0 with AccountID := env b2IDVar } else c0
  if c1.AccountID.isEmpty then .error (.fatal b2IDMsg)
  else
    let c2 := if c1.Key.isEmpty then { c1 with Key := env b2KeyVar } else c1
    if c2.Key.isEmpty then .error (.fatal b2KeyMsg)
    else applyB2Step cb c2

/-- The `rest` case body of `parseConfig`: apply options only. -/
def resolveRest (cb : Collab) (c : RestConfig) : Except Err Config :=
  match cb.applyRest c with
  | .error e => .error (.collab e)
  | .ok c1 => .ok (Config.restC c1)

/-- The `rclone` case body of `parseConfig`: apply options only. -/
def resolveRclone (cb : Collab) (c : RcloneConfig) : Except Err Config :=
  match cb.applyRclone c with
  | .error e => .error (.collab e)
  | .ok c1 => .ok (Config.rcloneC c1)

/-- `parseConfig(loc, opts)`: per-scheme credential fallback from the
environment, credential-pair validation, then option application via
the abstract options collaborator (each case body is factored out as a
`resolve*` function above).  A wrong config variant under a scheme
models the panicking Go type assertion. -/
def parseConfig (cb : Collab) (env : Env) (loc : Location) : Except Err Config :=
  if loc.Scheme == str "local" then
    match loc.Config with
    | some (Config.localC c) => resolveLocal cb c
    | _ => .error (.assertFail (str "interface conversion: local.Config"))
  else if loc.Scheme == str "sftp" then
    match loc.Config with
    | some (Config.sftpC c) => resolveSftp cb c
    | _ => .error (.assertFail (str "interface conversion: sftp.Config"))
  else if loc.Scheme == str "s3" then
    match loc.Config with
    | some (Config.s3C c0) => resolveS3 cb env c0
    | _ => .error (.assertFail (str "interface conversion: s3.Config"))
  else if loc.Scheme == str "gs" then
    match loc.Config with
    | some (Config.gsC c0) => resolveGs cb env c0
    | _ => .error (.assertFail (str "interface conversion: gs.Config"))
  else if loc.Scheme == str "azure" then
    match loc.Config with
    | some (Config.azureC c0) => resolveAzure cb env c0
    | _ => .error (.assertFail (str "interface conversion: azure.Config"))
  else if loc.Scheme == str "swift" then
    match loc.Config with
    | some (Config.swiftC c0) => resolveSwift cb c0
    | _ => .error (.assertFail (str "interface conversion: swift.Config"))
  else if loc.Scheme == str "b2" then
    match loc.Config with
    | some (Config.b2C c0) => resolveB2 cb env c0
    | _ => .error (.assertFail (str "interface conversion: b2.Config"))
  else if loc.Scheme == str "rest" then
    match loc.Config with
    | some (Config.restC c) => resolveRest cb c
    | _ => .error (.assertFail (str "interface conversion: rest.Config"))
  else if loc.Scheme == str "rclone" then
    match loc.Config with
    | some (Config.rcloneC c) => resolveRclone cb c
    | _ => .error (.assertFail (str "interface conversion: rclone.Config"))
  else .error (.invalidBackend loc.Scheme)

/-- The scheme switch of `Open`: calls the backend collaborator's open
function — with the round tripper `rt` for the HTTP backends, with
nothing extra for `local` and `sftp`, and with the limiter itself for
`rclone` (`rclone.Open(cfg, lim)` in the source).  The default branch
is the `errors.Fatalf("invalid backend: %q", loc.Scheme)` return. -/
def dispatchOpen (cb : Collab) (lim : Limits) (rt : RT) (scheme : Str) (cfg : Config) :
    Except Err Handle :=
  if scheme == str "local" then
    match cfg with
    | Config.localC c => (cb.localOpen c).mapError Err.collab
    | _ => .error (.assertFail (str "interface conversion: local.Config"))
  else if scheme == str "sftp" then
    match cfg with
    | Config.sftpC c => (cb.sftpOpen c).mapError Err.collab
    | _ => .error (.assertFail (str "interface conversion: sftp.Config"))
  else if scheme == str "s3" then
    match cfg with
    | Config.s3C c => (cb.s3Open c rt).mapError Err.collab
    | _ => .error (.assertFail (str "interface conversion: s3.Config"))
  else if scheme == str "gs" then
    match cfg with
    | Config.gsC c => (cb.gsOpen c rt).mapError Err.collab
    | _ => .error (.assertFail (str "interface conversion: gs.Config"))
  else if scheme == str "azure" then
    match cfg with
    | Config.azureC c => (cb.azureOpen c rt).mapError Err.collab
    | _ => .error (.assertFail (str "interface conversion: azure.Config"))
  else if scheme == str "swift" then
    match cfg with
    | Config.swiftC c => (cb.swiftOpen c rt).mapError Err.collab
    | _ => .error (.assertFail (str "interface conversion: swift.Config"))
  else if scheme == str "b2" then
    match cfg with
    | Config.b2C c => (cb.b2Open c rt).mapError Err.collab
    | _ => .error (.assertFail (str "interface conversion: b2.Config"))
  else if scheme == str "rest" then
    match cfg with
    | Config.restC c => (cb.restOpen c rt).mapError Err.collab
    | _ => .error (.assertFail (str "interface conversion: rest.Config"))
  else if scheme == str "rclone" then
    match cfg with
    | Config.rcloneC c => (cb.rcloneOpen c lim).mapError Err.collab
    | _ => .error (.assertFail (str "interface conversion: rclone.Config"))
  else .error (.invalidBackend scheme)

/-- `Open(ctx, s, opts, tropts, limits)`: parse the location (wrapping
a failure as a fatal "parsing repository location failed" error),
resolve the config (propagating its error unchanged), build the static
limiter from `limits`; for schemes other than `local`/`sftp` build the
HTTP transport (propagating its error unchanged) and wrap it with the
limiter; dispatch to the backend's open function; wrap any collaborator
open failure as a fatal error carrying the password-stripped location;
and wrap the handle itself with `limiter.LimitBackend` for the
non-HTTP schemes. -/
def Open (cb : Collab) (env : Env) (tropts : TrOpts) (limits : Limits) (s : Str) :
    Except Err Handle :=
  match parseLocationGo cb s with
  | (_, some e) => .error (.fatal (str "parsing repository location failed: " ++ e))
  | (loc, none) =>
    match parseConfig cb env loc with
    | .error e => .error e
    | .ok cfg =>
      let usesHTTP := !(loc.Scheme == str "local") && !(loc.Scheme == str "sftp")
      let lim := limits
      let rtStep : Except Err RT :=
        if usesHTTP then
          match cb.mkTransport tropts with
          | .error e => .error (.collab e)
          | .ok rt0 => .ok (RT.limited lim rt0)
        else .ok RT.nilRT
      match rtStep with
      | .error e => .error e
      | .ok rt =>
        match dispatchOpen cb lim rt loc.Scheme cfg with
        | .error (Err.collab e) =>
            .error (.fatal (str "unable to open repo at " ++ StripPassword cb s ++ str ": " ++ e))
        | .error e => .error e
        | .ok be => .ok (if usesHTTP then be else Handle.limitBackend be lim)

/-- A concrete collaborator instance used to evaluate claims on
concrete inputs: parsers accept their input and record it (except the
sftp parser, which fails), option application is the identity (no `-o`
overrides given), the transport builder succeeds, and all open
functions succeed except `b2Open`. -/
def cbDemo : Collab where
  localParse := fun p => .ok ⟨p⟩
  sftpParse := fun _ => .error (str "sftp parse failed")
  s3Parse := fun p => .ok ⟨[], [], [], p⟩
  gsParse := fun p => .ok ⟨[], p⟩
  azureParse := fun p => .ok ⟨[], [], p⟩
  swiftParse := fun p => .ok ⟨p⟩
  b2Parse := fun p => .ok ⟨str "id", str "key", p⟩
  restParse := fun p => .ok ⟨p⟩
  rcloneParse := fun p => .ok ⟨p⟩
  restStrip := fun _ => str "rest:stripped"
  applyLocal := fun c => .ok c
  applySftp := fun c => .ok c
  applyS3 := fun c => .ok c
  applyGs := fun c => .ok c
  applyAzure := fun c => .ok c
  applySwift := fun c => .ok c
  applyB2 := fun c => .ok c
  applyRest := fun c => .ok c
  applyRclone := fun c => .ok c
  swiftApplyEnv := fun c => .ok c
  mkTransport := fun t => .ok (RT.base t)
  localOpen := fun _ => .ok (Handle.mk (str "local-be"))
  sftpOpen := fun _ => .ok (Handle.mk (str "sftp-be"))
  s3Open := fun _ _ => .ok (Handle.mk (str "s3-be"))
  gsOpen := fun _ _ => .ok (Handle.mk (str "gs-be"))
  azureOpen := fun _ _ => .ok (Handle.mk (str "azure-be"))
  swiftOpen := fun _ _ => .ok (Handle.mk (str "swift-be"))
  b2Open := fun _ _ => .error (str "b2 connection refused")
  restOpen := fun _ _ => .ok (Handle.mk (str "rest-be"))
  rcloneOpen := fun _ _ => .ok (Handle.mk (str "rclone-be"))

/-- An environment with every variable unset. -/
def envEmpty : Env := fun _ => []

/-- A string without a colon is its own extracted scheme. -/
theorem extractScheme_no_colon (s : Str) (h : s.elem ':' = false) : extractScheme s = s := by
  induction s with
  | nil => rfl
  | cons c t ih =>
      simp only [List.elem_eq_mem, List.mem_cons, decide_eq_false_iff_not, not_or] at h
      obtain ⟨h1, h2⟩ := h
      unfold extractScheme at ih ⊢
      simp only [List.takeWhile_cons]
      have hc : (!(c == ':')) = true := by
        simp only [Bool.not_eq_true', beq_eq_false_iff_ne, ne_eq]
        exact fun e => h1 e.symm
      rw [hc]
      simp only [if_true]
      rw [ih (by simp [List.elem_eq_mem, h2])]

/-- A scheme outside the table yields no entry. -/
theorem findEntry_none_of_not_mem (cb : Collab) (sch : Str) (h : sch ∉ schemeNames) :
    findEntry (parsers cb) sch = none := by
  simp only [schemeNames, List.mem_cons, List.not_mem_nil, or_false, not_or] at h
  obtain ⟨h1, h2, h3, h4, h5, h6, h7, h8, h9⟩ := h
  have g1 : ¬(str "b2" = sch) := fun e => h1 e.symm
  have g2 : ¬(str "local" = sch) := fun e => h2 e.symm
  have g3 : ¬(str "sftp" = sch) := fun e => h3 e.symm
  have g4 : ¬(str "s3" = sch) := fun e => h4 e.symm
  have g5 : ¬(str "gs" = sch) := fun e => h5 e.symm
  have g6 : ¬(str "azure" = sch) := fun e => h6 e.symm
  have g7 : ¬(str "swift" = sch) := fun e => h7 e.symm
  have g8 : ¬(str "rest" = sch) := fun e => h8 e.symm
  have g9 : ¬(str "rclone" = sch) := fun e => h9 e.symm
  simp [findEntry, parsers, beq_iff_eq, g1, g2, g3, g4, g5, g6, g7, g8, g9]

/-- An entry found in the table means the scheme is registered. -/
theorem mem_of_findEntry_some (cb : Collab) (sch : Str) (p : ParserEntry)
    (h : findEntry (parsers cb) sch = some p) : sch ∈ schemeNames := by
  by_cases hm : sch ∈ schemeNames
  · exact hm
  · rw [findEntry_none_of_not_mem cb sch hm] at h
    exact absurd h (by simp)

/-- When `parseLocation` carries an error, its location component is
the zero location. -/
theorem parseLocationGo_fst_of_err (cb : Collab) (s : Str) :
    (parseLocationGo cb s).2.isSome = true → (parseLocationGo cb s).1 = zeroLocation := by
  simp only [parseLocationGo]
  split
  · split <;> simp
  · split
    · simp
    · split <;> simp

/-- C10: every error path of `parseLocation` releases the Go zero
location (empty scheme, nil config) alongside the error. -/
theorem c10_error_zero_location (cb : Collab) (s : Str) (loc : Location) (e : Str)
    (h : parseLocationGo cb s = (loc, some e)) : loc = zeroLocation := by
  have key := parseLocationGo_fst_of_err cb s
  rw [h] at key
  simpa using key (by simp)

/-- Witness for C10 at a concrete ambiguous input. -/
theorem c10_error_zero_location_witness : zeroLocation = zeroLocation :=
  c10_error_zero_location cbDemo (str "foo:bar") zeroLocation ambiguousMsg (by decide)

/-- C6: when the extracted scheme matches no table entry, the string is
not path-shaped, and it contains a colon, `parseLocation` fails with
the "add a `local:` prefix" error and the zero location — the local
fallback is not consulted (the result does not depend on the local
parser). -/
theorem c6_ambiguous_location (cb : Collab) (s : Str)
    (hfind : findEntry (parsers cb) (extractScheme s) = none)
    (hpath : isPath s = false) (hcolon : s.elem ':' = true) :
    parseLocationGo cb s = (zeroLocation, some ambiguousMsg) := by
  have hmem : ':' ∈ s := by simpa [List.elem_eq_mem] using hcolon
  simp only [parseLocationGo, hfind]
  simp [hpath, hmem]

/-- Witness for C6 at `"foo:bar"`. -/
theorem c6_ambiguous_location_witness :
    parseLocationGo cbDemo (str "foo:bar") = (zeroLocation, some ambiguousMsg) :=
  c6_ambiguous_location cbDemo (str "foo:bar") (by rfl) (by decide) (by decide)

/-- Counterexample to C2 as stated: `"s3"` contains no colon, yet its
whole-string scheme `"s3"` does match a parser-table entry, so
`parseLocation` consults the s3 parser — here it succeeds and the
resulting scheme is `"s3"`, not `"local"`. -/
theorem c2_counterexample :
    (str "s3").elem ':' = false ∧
    (parseLocationGo cbDemo (str "s3")).2 = none ∧
    (parseLocationGo cbDemo (str "s3")).1.Scheme ≠ str "local" := by
  refine ⟨by decide, by decide, by decide⟩

/-- C2 amended: for a colon-free string that is not itself one of the
nine registered scheme names, `parseLocation` falls back to the local
backend: it succeeds with scheme `"local"` exactly when the local
parser accepts `"local:" + s`, and fails with the local parser's error
otherwise. -/
theorem c2_amended_local_fallback (cb : Collab) (s : Str)
    (hc : s.elem ':' = false) (hs : s ∉ schemeNames) :
    (∀ c, cb.localParse (str "local:" ++ s) = .ok c →
        parseLocationGo cb s = ({ Scheme := str "local", Config := some (Config.localC c) }, none)) ∧
    (∀ e, cb.localParse (str "local:" ++ s) = .error e →
        parseLocationGo cb s = (zeroLocation, some e)) := by
  have hx : extractScheme s = s := extractScheme_no_colon s hc
  have hf : findEntry (parsers cb) (extractScheme s) = none := by
    rw [hx]; exact findEntry_none_of_not_mem cb s hs
  have hnot : ':' ∉ s := by simpa [List.elem_eq_mem] using hc
  constructor
  · intro c hok
    simp only [parseLocationGo, hf]
    simp [hnot, hok]
  · intro e herr
    simp only [parseLocationGo, hf]
    simp [hnot, herr]

/-- Witness for the amended C2 at `"mydir"` (accepted by the local
parser) with the concrete collaborators. -/
theorem c2_amended_local_fallback_witness :
    parseLocationGo cbDemo (str "mydir") =
      ({ Scheme := str "local", Config := some (Config.localC ⟨str "local:mydir"⟩) }, none) :=
  (c2_amended_local_fallback cbDemo (str "mydir") (by decide) (by decide)).1
    ⟨str "local:mydir"⟩ (by rfl)

/-- The scheme of a successfully parsed location is registered in the
parser table (it matched an entry, or was forced to `"local"`). -/
theorem parseLocation_scheme_mem (cb : Collab) (s : Str) (loc : Location)
    (h : parseLocationGo cb s = (loc, none)) : loc.Scheme ∈ schemeNames := by
  rcases hf : findEntry (parsers cb) (extractScheme s) with _ | p
  · simp only [parseLocationGo, hf] at h
    split at h
    · simp at h
    · split at h
      · simp at h
      · have h1 := congrArg Prod.fst h
        simp only at h1
        rw [← h1]
        simp [schemeNames]
  · simp only [parseLocationGo, hf] at h
    split at h
    · simp at h
    · have h1 := congrArg Prod.fst h
      simp only at h1
      rw [← h1]
      simpa using mem_of_findEntry_some cb (extractScheme s) p hf

/-- `parseConfig` never takes its "invalid backend" default branch on a
registered scheme. -/
theorem parseConfig_ne_invalid (cb : Collab) (env : Env) (loc : Location)
    (hm : loc.Scheme ∈ schemeNames) (sch : Str) :
    parseConfig cb env loc ≠ .error (.invalidBackend sch) := by
  simp only [schemeNames, List.mem_cons, List.not_mem_nil, or_false] at hm
  rcases hm with h|h|h|h|h|h|h|h|h <;>
    simp +decide [parseConfig, h, resolveLocal, resolveSftp, resolveS3, resolveGs,
      resolveAzure, resolveSwift, resolveB2, resolveRest, resolveRclone,
      applyS3Step, applyGsStep, applyAzureStep, applyB2Step] <;>
    (repeat' split) <;>
    simp

/-- `dispatchOpen` never takes its "invalid backend" default branch on
a registered scheme. -/
theorem dispatchOpen_ne_invalid (cb : Collab) (lim : Limits) (rt : RT) (scheme : Str)
    (cfg : Config) (hm : scheme ∈ schemeNames) (sch : Str) :
    dispatchOpen cb lim rt scheme cfg ≠ .error (.invalidBackend sch) := by
  simp only [schemeNames, List.mem_cons, List.not_mem_nil, or_false] at hm
  rcases hm with h|h|h|h|h|h|h|h|h <;>
    simp +decide [dispatchOpen, h, Except.mapError] <;>
    (repeat' split) <;>
    simp

/-- An "invalid backend" error out of `Open` can only originate in
`parseConfig`'s or `dispatchOpen`'s default branch. -/
theorem Open_invalid_source (cb : Collab) (env : Env) (tropts : TrOpts) (limits : Limits)
    (s : Str) (sch : Str)
    (h : Open cb env tropts limits s = .error (.invalidBackend sch)) :
    ∃ loc, parseLocationGo cb s = (loc, none) ∧
      (parseConfig cb env loc = .error (.invalidBackend sch) ∨
       ∃ cfg rt, dispatchOpen cb limits rt loc.Scheme cfg = .error (.invalidBackend sch)) := by
  rcases hp : parseLocationGo cb s with ⟨loc, err⟩
  rcases err with _ | e
  · refine ⟨loc, rfl, ?_⟩
    rcases hcfg : parseConfig cb env loc with e | cfg
    · left
      have h2 : (Except.error e : Except Err Handle) = Except.error (Err.invalidBackend sch) := by
        simpa only [Open, hp, hcfg] using h
      rw [Except.error.inj h2]
    · right
      cases hL : (loc.Scheme == str "local") <;> cases hS : (loc.Scheme == str "sftp")
      case false.false =>
        rcases ht : cb.mkTransport tropts with m | rt0
        · simp [Open, hp, hcfg, hL, hS, ht] at h
        · rcases hd : dispatchOpen cb limits (RT.limited limits rt0) loc.Scheme cfg
            with e' | be
          · rcases e' with m | m | sch' | m <;>
              simp [Open, hp, hcfg, hL, hS, ht, hd] at h
            exact ⟨cfg, RT.limited limits rt0, by rw [hd, h]⟩
          · simp [Open, hp, hcfg, hL, hS, ht, hd] at h
      case false.true =>
        rcases hd : dispatchOpen cb limits RT.nilRT loc.Scheme cfg with e' | be
        · rcases e' with m | m | sch' | m <;>
            simp [Open, hp, hcfg, hL, hS, hd] at h
          exact ⟨cfg, RT.nilRT, by rw [hd, h]⟩
        · simp [Open, hp, hcfg, hL, hS, hd] at h
      case true.false =>
        rcases hd : dispatchOpen cb limits RT.nilRT loc.Scheme cfg with e' | be
        · rcases e' with m | m | sch' | m <;>
            simp [Open, hp, hcfg, hL, hS, hd] at h
          exact ⟨cfg, RT.nilRT, by rw [hd, h]⟩
        · simp [Open, hp, hcfg, hL, hS, hd] at h
      case true.true =>
        rcases hd : dispatchOpen cb limits RT.nilRT loc.Scheme cfg with e' | be
        · rcases e' with m | m | sch' | m <;>
            simp [Open, hp, hcfg, hL, hS, hd] at h
          exact ⟨cfg, RT.nilRT, by rw [hd, h]⟩
        · simp [Open, hp, hcfg, hL, hS, hd] at h
  · simp [Open, hp] at h

/-- C9: a location produced by a successful `parseLocation` has one of
the nine registered schemes, and consequently neither `parseConfig` nor
`Open` can return their defensive "invalid backend" default error for
it. -/
theorem c9_registered_scheme_no_invalid_backend (cb : Collab) (s : Str) (loc : Location)
    (h : parseLocationGo cb s = (loc, none)) :
    loc.Scheme ∈ schemeNames ∧
    (∀ env sch, parseConfig cb env loc ≠ .error (.invalidBackend sch)) ∧
    (∀ env tropts limits sch, Open cb env tropts limits s ≠ .error (.invalidBackend sch)) := by
  have hm := parseLocation_scheme_mem cb s loc h
  refine ⟨hm, fun env sch => parseConfig_ne_invalid cb env loc hm sch, ?_⟩
  intro env tropts limits sch hopen
  obtain ⟨loc', hp', hsrc⟩ := Open_invalid_source cb env tropts limits s sch hopen
  have heq : loc' = loc := by
    simpa using congrArg Prod.fst (hp'.symm.trans h)
  subst heq
  rcases hsrc with hcfg | ⟨cfg, rt, hd⟩
  · exact parseConfig_ne_invalid cb env loc' hm sch hcfg
  · exact dispatchOpen_ne_invalid cb limits rt loc'.Scheme cfg hm sch hd

/-- Witness for C9 at a concrete `b2` location. -/
theorem c9_registered_scheme_no_invalid_backend_witness :
    (({ Scheme := str "b2",
        Config := some (Config.b2C ⟨str "id", str "key", str "b2:bkt"⟩) } : Location).Scheme
      ∈ schemeNames) :=
  (c9_registered_scheme_no_invalid_backend cbDemo (str "b2:bkt")
    { Scheme := str "b2", Config := some (Config.b2C ⟨str "id", str "key", str "b2:bkt"⟩) }
    (by decide)).1

/-- All-or-nothing credential pair: both fields present or both absent. -/
def pairOk (a b : Str) : Bool := (a.isEmpty && b.isEmpty) || (!a.isEmpty && !b.isEmpty)

/-- Inversion of the s3 option-application step on success. -/
theorem applyS3Step_ok_iff (cb : Collab) (c : S3Config) (cfg : Config) :
    applyS3Step cb c = .ok cfg ↔ ∃ c4, cfg = Config.s3C c4 ∧ cb.applyS3 c = .ok c4 := by
  rcases ha : cb.applyS3 c with e | c4 <;> simp [applyS3Step, ha, eq_comm]

/-- Inversion of the gs option-application step on success. -/
theorem applyGsStep_ok_iff (cb : Collab) (c : GsConfig) (cfg : Config) :
    applyGsStep cb c = .ok cfg ↔ ∃ c2, cfg = Config.gsC c2 ∧ cb.applyGs c = .ok c2 := by
  rcases ha : cb.applyGs c with e | c2 <;> simp [applyGsStep, ha, eq_comm]

/-- Inversion of the azure option-application step on success. -/
theorem applyAzureStep_ok_iff (cb : Collab) (c : AzureConfig) (cfg : Config) :
    applyAzureStep cb c = .ok cfg ↔ ∃ c3, cfg = Config.azureC c3 ∧ cb.applyAzure c = .ok c3 := by
  rcases ha : cb.applyAzure c with e | c3 <;> simp [applyAzureStep, ha, eq_comm]

/-- Inversion of the b2 option-application step on success. -/
theorem applyB2Step_ok_iff (cb : Collab) (c : B2Config) (cfg : Config) :
    applyB2Step cb c = .ok cfg ↔ ∃ c3, cfg = Config.b2C c3 ∧ cb.applyB2 c = .ok c3 := by
  rcases ha : cb.applyB2 c with e | c3 <;> simp [applyB2Step, ha, eq_comm]

/-- Success shape of the gs resolution: the applied config's project id
is the parsed one, or the environment's when the parsed one is empty. -/
theorem resolveGs_ok (cb : Collab) (env : Env) (c0 : GsConfig) (cfg : Config)
    (h : resolveGs cb env c0 = .ok cfg) :
    ∃ c1 c2, cfg = Config.gsC c2 ∧ cb.applyGs c1 = .ok c2 ∧
      c1.ProjectID = (if c0.ProjectID.isEmpty then env gsProjectVar else c0.ProjectID) ∧
      c1.Data = c0.Data := by
  simp only [resolveGs, applyGsStep_ok_iff] at h
  obtain ⟨c2, rfl, ha⟩ := h
  refine ⟨_, c2, rfl, ha, ?_, ?_⟩ <;>
    by_cases hP : c0.ProjectID.isEmpty <;> simp [hP]

/-- Success shape of the azure resolution: both account fields get the
environment fallback, and no pair validation is performed. -/
theorem resolveAzure_ok (cb : Collab) (env : Env) (c0 : AzureConfig) (cfg : Config)
    (h : resolveAzure cb env c0 = .ok cfg) :
    ∃ c2 c3, cfg = Config.azureC c3 ∧ cb.applyAzure c2 = .ok c3 ∧
      c2.AccountName = (if c0.AccountName.isEmpty then env azureNameVar else c0.AccountName) ∧
      c2.AccountKey = (if c0.AccountKey.isEmpty then env azureKeyVar else c0.AccountKey) ∧
      c2.Data = c0.Data := by
  simp only [resolveAzure, applyAzureStep_ok_iff] at h
  obtain ⟨c3, rfl, ha⟩ := h
  refine ⟨_, c3, rfl, ha, ?_, ?_, ?_⟩ <;>
    by_cases hN : c0.AccountName.isEmpty <;> by_cases hK : c0.AccountKey.isEmpty <;>
      simp [hN, hK, apply_ite]

/-- Success shape of the s3 resolution: key id, secret and region get
their environment fallbacks, the pair passed validation (both present
or both absent), and the applied config keeps the rest. -/
theorem resolveS3_ok (cb : Collab) (env : Env) (c0 : S3Config) (cfg : Config)
    (h : resolveS3 cb env c0 = .ok cfg) :
    ∃ c3 c4, cfg = Config.s3C c4 ∧ cb.applyS3 c3 = .ok c4 ∧
      c3.KeyID = (if c0.KeyID.isEmpty then env awsKeyVar else c0.KeyID) ∧
      c3.Secret = (if c0.Secret.isEmpty then env awsSecretVar else c0.Secret) ∧
      c3.Region = (if c0.Region.isEmpty then env awsRegionVar else c0.Region) ∧
      c3.Data = c0.Data ∧ pairOk c3.KeyID c3.Secret = true := by
  by_cases hK : c0.KeyID = [] <;> by_cases hS : c0.Secret = [] <;>
    by_cases hEK : env awsKeyVar = [] <;> by_cases hES : env awsSecretVar = [] <;>
      simp only [resolveS3] at h <;>
      simp [hK, hS, hEK, hES] at h <;>
      rw [applyS3Step_ok_iff] at h <;>
      obtain ⟨c4, rfl, ha⟩ := h <;>
      refine ⟨_, c4, rfl, ha, ?_, ?_, ?_, ?_, ?_⟩ <;>
        by_cases hR : c0.Region = [] <;>
          simp [hK, hS, hEK, hES, hR, pairOk, apply_ite]

/-- Success shape of the b2 resolution: account id and key get their
environment fallbacks and both passed the non-emptiness checks. -/
theorem resolveB2_ok (cb : Collab) (env : Env) (c0 : B2Config) (cfg : Config)
    (h : resolveB2 cb env c0 = .ok cfg) :
    ∃ c2 c3, cfg = Config.b2C c3 ∧ cb.applyB2 c2 = .ok c3 ∧
      c2.AccountID = (if c0.AccountID.isEmpty then env b2IDVar else c0.AccountID) ∧
      c2.Key = (if c0.Key.isEmpty then env b2KeyVar else c0.Key) ∧
      c2.Data = c0.Data ∧
      c2.AccountID.isEmpty = false ∧ c2.Key.isEmpty = false := by
  by_cases hA : c0.AccountID = [] <;> by_cases hK : c0.Key = [] <;>
    by_cases hEA : env b2IDVar = [] <;> by_cases hEK : env b2KeyVar = [] <;>
      simp only [resolveB2] at h <;>
      simp [hA, hK, hEA, hEK] at h <;>
      rw [applyB2Step_ok_iff] at h <;>
      obtain ⟨c3, rfl, ha⟩ := h <;>
      refine ⟨_, c3, rfl, ha, ?_, ?_, ?_, ?_, ?_⟩ <;>
        simp [hA, hK, hEA, hEK, apply_ite, List.isEmpty_iff]

/-- `parseConfig` on an s3 location runs the s3 resolution. -/
theorem parseConfig_s3_eq (cb : Collab) (env : Env) (c : S3Config) :
    parseConfig cb env { Scheme := str "s3", Config := some (Config.s3C c) } =
      resolveS3 cb env c := by
  simp +decide [parseConfig]

/-- `parseConfig` on a gs location runs the gs resolution. -/
theorem parseConfig_gs_eq (cb : Collab) (env : Env) (c : GsConfig) :
    parseConfig cb env { Scheme := str "gs", Config := some (Config.gsC c) } =
      resolveGs cb env c := by
  simp +decide [parseConfig]

/-- `parseConfig` on an azure location runs the azure resolution. -/
theorem parseConfig_azure_eq (cb : Collab) (env : Env) (c : AzureConfig) :
    parseConfig cb env { Scheme := str "azure", Config := some (Config.azureC c) } =
      resolveAzure cb env c := by
  simp +decide [parseConfig]

/-- `parseConfig` on a b2 location runs the b2 resolution. -/
theorem parseConfig_b2_eq (cb : Collab) (env : Env) (c : B2Config) :
    parseConfig cb env { Scheme := str "b2", Config := some (Config.b2C c) } =
      resolveB2 cb env c := by
  simp +decide [parseConfig]

/-- Counterexample to C4 as stated: with no options given and an empty
environment, an azure location carrying an account name but no account
key resolves without error to a config with exactly one of the pair
filled — the azure case of `parseConfig` performs no pair validation. -/
theorem c4_counterexample :
    parseConfig cbDemo envEmpty
        { Scheme := str "azure", Config := some (Config.azureC ⟨str "acct", [], []⟩) } =
      .ok (Config.azureC ⟨str "acct", [], []⟩) ∧
    pairOk (str "acct") [] = false :=
  ⟨by decide, by decide⟩

/-- C4 amended: restricted to the backends whose `parseConfig` case
validates the pair.  Provided option application leaves the credential
fields unchanged, an S3 config returned without error has key-id and
secret both present or both absent, and a B2 config has account id and
key both non-empty (hence pair-complete).  Azure, which the original
claim also listed, performs no such validation (see the
counterexample). -/
theorem c4_amended_pair_invariant (cb : Collab) (env : Env)
    (hS3 : ∀ c c', cb.applyS3 c = .ok c' → c'.KeyID = c.KeyID ∧ c'.Secret = c.Secret)
    (hB2 : ∀ c c', cb.applyB2 c = .ok c' → c'.AccountID = c.AccountID ∧ c'.Key = c.Key) :
    (∀ c c', parseConfig cb env { Scheme := str "s3", Config := some (Config.s3C c) } =
        .ok (Config.s3C c') → pairOk c'.KeyID c'.Secret = true) ∧
    (∀ c c', parseConfig cb env { Scheme := str "b2", Config := some (Config.b2C c) } =
        .ok (Config.b2C c') → pairOk c'.AccountID c'.Key = true ∧
          c'.AccountID.isEmpty = false ∧ c'.Key.isEmpty = false) := by
  constructor
  · intro c c' h
    rw [parseConfig_s3_eq] at h
    obtain ⟨c3, c4, hc, ha, hkid, hsec, hreg, hdat, hpair⟩ := resolveS3_ok cb env c _ h
    obtain ⟨h1, h2⟩ := hS3 c3 c4 ha
    have hc' : c' = c4 := by injection hc
    subst hc'
    rw [h1, h2]
    exact hpair
  · intro c c' h
    rw [parseConfig_b2_eq] at h
    obtain ⟨c2, c3, hc, ha, haid, hkey, hdat, hne1, hne2⟩ := resolveB2_ok cb env c _ h
    obtain ⟨h1, h2⟩ := hB2 c2 c3 ha
    have hc' : c' = c3 := by injection hc
    subst hc'
    refine ⟨?_, by rw [h1]; exact hne1, by rw [h2]; exact hne2⟩
    rw [h1, h2]
    simp [pairOk, hne1, hne2]

/-- Witness for the amended C4: explicit key-id and secret survive
resolution with the pair complete. -/
theorem c4_amended_pair_invariant_witness :
    pairOk (S3Config.mk (str "AK") (str "SK") [] []).KeyID
      (S3Config.mk (str "AK") (str "SK") [] []).Secret = true :=
  (c4_amended_pair_invariant cbDemo envEmpty
      (fun _ _ h => by cases h; exact ⟨rfl, rfl⟩)
      (fun _ _ h => by cases h; exact ⟨rfl, rfl⟩)).1
    ⟨str "AK", str "SK", [], []⟩ ⟨str "AK", str "SK", [], []⟩ (by decide)

/-- C8: each credential field subject to environment fallback keeps its
parsed value when non-empty and takes the environment variable's value
when empty (option application, an abstract collaborator, is assumed to
leave the credential fields unchanged — no `-o` override for them). -/
theorem c8_env_fallback_precedence (cb : Collab) (env : Env)
    (hS3 : ∀ c c', cb.applyS3 c = .ok c' →
        c'.KeyID = c.KeyID ∧ c'.Secret = c.Secret ∧ c'.Region = c.Region)
    (hGs : ∀ c c', cb.applyGs c = .ok c' → c'.ProjectID = c.ProjectID)
    (hAz : ∀ c c', cb.applyAzure c = .ok c' →
        c'.AccountName = c.AccountName ∧ c'.AccountKey = c.AccountKey)
    (hB2 : ∀ c c', cb.applyB2 c = .ok c' → c'.AccountID = c.AccountID ∧ c'.Key = c.Key) :
    (∀ c c', parseConfig cb env { Scheme := str "s3", Config := some (Config.s3C c) } =
        .ok (Config.s3C c') →
        c'.KeyID = (if c.KeyID.isEmpty then env awsKeyVar else c.KeyID) ∧
        c'.Secret = (if c.Secret.isEmpty then env awsSecretVar else c.Secret) ∧
        c'.Region = (if c.Region.isEmpty then env awsRegionVar else c.Region)) ∧
    (∀ c c', parseConfig cb env { Scheme := str "gs", Config := some (Config.gsC c) } =
        .ok (Config.gsC c') →
        c'.ProjectID = (if c.ProjectID.isEmpty then env gsProjectVar else c.ProjectID)) ∧
    (∀ c c', parseConfig cb env { Scheme := str "azure", Config := some (Config.azureC c) } =
        .ok (Config.azureC c') →
        c'.AccountName = (if c.AccountName.isEmpty then env azureNameVar else c.AccountName) ∧
        c'.AccountKey = (if c.AccountKey.isEmpty then env azureKeyVar else c.AccountKey)) ∧
    (∀ c c', parseConfig cb env { Scheme := str "b2", Config := some (Config.b2C c) } =
        .ok (Config.b2C c') →
        c'.AccountID = (if c.AccountID.isEmpty then env b2IDVar else c.AccountID) ∧
        c'.Key = (if c.Key.isEmpty then env b2KeyVar else c.Key)) := by
  refine ⟨?_, ?_, ?_, ?_⟩
  · intro c c' h
    rw [parseConfig_s3_eq] at h
    obtain ⟨c3, c4, hc, ha, hkid, hsec, hreg, _, _⟩ := resolveS3_ok cb env c _ h
    obtain ⟨h1, h2, h3⟩ := hS3 c3 c4 ha
    have hc' : c' = c4 := by injection hc
    subst hc'
    exact ⟨h1.trans hkid, h2.trans hsec, h3.trans hreg⟩
  · intro c c' h
    rw [parseConfig_gs_eq] at h
    obtain ⟨c1, c2, hc, ha, hpid, _⟩ := resolveGs_ok cb env c _ h
    have hc' : c' = c2 := by injection hc
    subst hc'
    exact (hGs _ _ ha).trans hpid
  · intro c c' h
    rw [parseConfig_azure_eq] at h
    obtain ⟨c2, c3, hc, ha, hnam, hkey, _⟩ := resolveAzure_ok cb env c _ h
    obtain ⟨h1, h2⟩ := hAz c2 c3 ha
    have hc' : c' = c3 := by injection hc
    subst hc'
    exact ⟨h1.trans hnam, h2.trans hkey⟩
  · intro c c' h
    rw [parseConfig_b2_eq] at h
    obtain ⟨c2, c3, hc, ha, haid, hkey, _, _, _⟩ := resolveB2_ok cb env c _ h
    obtain ⟨h1, h2⟩ := hB2 c2 c3 ha
    have hc' : c' = c3 := by injection hc
    subst hc'
    exact ⟨h1.trans haid, h2.trans hkey⟩

/-- Witness for C8: an empty gs project id is filled from
`$GOOGLE_PROJECT_ID`. -/
theorem c8_env_fallback_precedence_witness :
    (GsConfig.mk (str "proj-1") (str "gs:bkt")).ProjectID =
      (if ([] : Str).isEmpty then (fun v => if v == gsProjectVar then str "proj-1" else [])
          gsProjectVar
        else ([] : Str)) :=
  (c8_env_fallback_precedence cbDemo
      (fun v => if v == gsProjectVar then str "proj-1" else [])
      (fun _ _ h => by cases h; exact ⟨rfl, rfl, rfl⟩)
      (fun _ _ h => by cases h; exact rfl)
      (fun _ _ h => by cases h; exact ⟨rfl, rfl⟩)
      (fun _ _ h => by cases h; exact ⟨rfl, rfl⟩)).2.1
    ⟨[], str "gs:bkt"⟩ ⟨str "proj-1", str "gs:bkt"⟩ (by decide)

/-- Inversion of the s3 option-application step on failure: only a
collaborator (option) error can come out of it. -/
theorem applyS3Step_error_iff (cb : Collab) (c : S3Config) (e : Err) :
    applyS3Step cb c = .error e ↔ ∃ m, e = Err.collab m ∧ cb.applyS3 c = .error m := by
  rcases ha : cb.applyS3 c with m | c4 <;> simp [applyS3Step, ha, eq_comm]

/-- C7: for S3, exactly one of key-id and secret non-empty after the
environment fallback is a fatal error with the message naming the
missing variable (`$AWS_ACCESS_KEY_ID` resp. `$AWS_SECRET_ACCESS_KEY`),
and with both empty the credentials cause no failure (any error out of
the s3 case is then an option-application error); for B2, an account id
or key still empty after fallback is a fatal error naming
`$B2_ACCOUNT_ID` resp. `$B2_ACCOUNT_KEY`. -/
theorem c7_missing_credential_errors (cb : Collab) (env : Env) (c : S3Config) (d : B2Config) :
    ((if c.KeyID.isEmpty then env awsKeyVar else c.KeyID) = [] →
     (if c.Secret.isEmpty then env awsSecretVar else c.Secret) ≠ [] →
     parseConfig cb env { Scheme := str "s3", Config := some (Config.s3C c) } =
       .error (.fatal s3KeyMsg)) ∧
    ((if c.KeyID.isEmpty then env awsKeyVar else c.KeyID) ≠ [] →
     (if c.Secret.isEmpty then env awsSecretVar else c.Secret) = [] →
     parseConfig cb env { Scheme := str "s3", Config := some (Config.s3C c) } =
       .error (.fatal s3SecretMsg)) ∧
    ((if c.KeyID.isEmpty then env awsKeyVar else c.KeyID) = [] →
     (if c.Secret.isEmpty then env awsSecretVar else c.Secret) = [] →
     ∀ e, parseConfig cb env { Scheme := str "s3", Config := some (Config.s3C c) } =
       .error e → ∃ m, e = Err.collab m) ∧
    ((if d.AccountID.isEmpty then env b2IDVar else d.AccountID) = [] →
     parseConfig cb env { Scheme := str "b2", Config := some (Config.b2C d) } =
       .error (.fatal b2IDMsg)) ∧
    ((if d.AccountID.isEmpty then env b2IDVar else d.AccountID) ≠ [] →
     (if d.Key.isEmpty then env b2KeyVar else d.Key) = [] →
     parseConfig cb env { Scheme := str "b2", Config := some (Config.b2C d) } =
       .error (.fatal b2KeyMsg)) := by
  simp only [parseConfig_s3_eq, parseConfig_b2_eq]
  refine ⟨?_, ?_, ?_, ?_, ?_⟩
  · intro h1 h2
    by_cases hK : c.KeyID = [] <;> by_cases hS : c.Secret = [] <;>
      simp_all [resolveS3, List.isEmpty_iff]
  · intro h1 h2
    by_cases hK : c.KeyID = [] <;> by_cases hS : c.Secret = [] <;>
      simp_all [resolveS3, List.isEmpty_iff]
  · intro h1 h2 e he
    by_cases hK : c.KeyID = [] <;> by_cases hS : c.Secret = [] <;>
      simp_all [resolveS3, List.isEmpty_iff]
    all_goals (
      rw [applyS3Step_error_iff] at he
      obtain ⟨m, rfl, -⟩ := he
      exact ⟨m, rfl⟩)
  · intro h1
    by_cases hA : d.AccountID = [] <;>
      simp_all [resolveB2, List.isEmpty_iff]
  · intro h1 h2
    by_cases hA : d.AccountID = [] <;> by_cases hKy : d.Key = [] <;>
      simp_all [resolveB2, List.isEmpty_iff]

/-- Witness for C7: with only `$AWS_SECRET_ACCESS_KEY` set and an empty
parsed config, resolution fails naming the key id. -/
theorem c7_missing_credential_errors_witness :
    parseConfig cbDemo (fun v => if v == awsSecretVar then str "SEC" else [])
        { Scheme := str "s3", Config := some (Config.s3C ⟨[], [], [], []⟩) } =
      .error (.fatal s3KeyMsg) :=
  (c7_missing_credential_errors cbDemo
      (fun v => if v == awsSecretVar then str "SEC" else [])
      ⟨[], [], [], []⟩ ⟨str "id", str "key", []⟩).1 (by decide) (by decide)

/-- A list is a prefix of itself followed by anything. -/
theorem hasPre_append_self (p t : Str) : hasPre p (p ++ t) = true := by
  induction p with
  | nil => simp [hasPre]
  | cons a q ih => simp [hasPre, ih]

/-- A list occurs as a substring wherever it sits between two others. -/
theorem hasSub_append_self (x p y : Str) : hasSub (x ++ p ++ y) p = true := by
  induction x with
  | nil =>
      cases p with
      | nil => cases y <;> simp [hasSub, hasPre]
      | cons a q =>
          simp only [List.nil_append, List.cons_append, hasSub, List.append_eq]
          rw [show a :: (q ++ y) = (a :: q) ++ y from rfl, hasPre_append_self]
          simp
  | cons a t ih =>
      simp only [List.cons_append, hasSub, List.append_eq]
      rw [ih]
      simp

/-- Counterexample to C1 as stated: a backend parser failure is wrapped
as `fatal("parsing repository location failed: %v", err)`, whose
message does not contain the password-stripped location string at
all. -/
theorem c1_counterexample :
    Open cbDemo envEmpty (str "T") ⟨0, 0⟩ (str "sftp:host") =
      .error (.fatal (str "parsing repository location failed: sftp parse failed")) ∧
    hasSub (str "parsing repository location failed: sftp parse failed")
      (StripPassword cbDemo (str "sftp:host")) = false :=
  ⟨by decide, by decide⟩

/-- C1 amended: only a backend-construction failure is wrapped into a
fatal error whose message contains the password-stripped location
string; a location-parse failure is wrapped fatal under the fixed
prefix "parsing repository location failed:" without the stripped
location; config-resolution errors and transport errors are returned
unchanged. -/
theorem c1_amended_error_redaction (cb : Collab) (env : Env) (tropts : TrOpts)
    (limits : Limits) (s : Str) :
    (∀ loc e, parseLocationGo cb s = (loc, some e) →
       Open cb env tropts limits s =
         .error (.fatal (str "parsing repository location failed: " ++ e))) ∧
    (∀ loc e, parseLocationGo cb s = (loc, none) → parseConfig cb env loc = .error e →
       Open cb env tropts limits s = .error e) ∧
    (∀ loc cfg m, parseLocationGo cb s = (loc, none) → parseConfig cb env loc = .ok cfg →
       (loc.Scheme == str "local") = false → (loc.Scheme == str "sftp") = false →
       cb.mkTransport tropts = .error m →
       Open cb env tropts limits s = .error (.collab m)) ∧
    (∀ loc cfg rt0 e, parseLocationGo cb s = (loc, none) → parseConfig cb env loc = .ok cfg →
       (loc.Scheme == str "local") = false → (loc.Scheme == str "sftp") = false →
       cb.mkTransport tropts = .ok rt0 →
       dispatchOpen cb limits (RT.limited limits rt0) loc.Scheme cfg = .error (.collab e) →
       Open cb env tropts limits s =
         .error (.fatal (str "unable to open repo at " ++ StripPassword cb s ++ str ": " ++ e))) ∧
    (∀ loc cfg e, parseLocationGo cb s = (loc, none) → parseConfig cb env loc = .ok cfg →
       ((loc.Scheme == str "local") = true ∨ (loc.Scheme == str "sftp") = true) →
       dispatchOpen cb limits RT.nilRT loc.Scheme cfg = .error (.collab e) →
       Open cb env tropts limits s =
         .error (.fatal (str "unable to open repo at " ++ StripPassword cb s ++ str ": " ++ e))) ∧
    (∀ e, hasSub (str "unable to open repo at " ++ StripPassword cb s ++ str ": " ++ e)
       (StripPassword cb s) = true) := by
  refine ⟨?_, ?_, ?_, ?_, ?_, ?_⟩
  · intro loc e hp
    simp [Open, hp]
  · intro loc e hp hcfg
    simp [Open, hp, hcfg]
  · intro loc cfg m hp hcfg hL hS ht
    simp [Open, hp, hcfg, hL, hS, ht]
  · intro loc cfg rt0 e hp hcfg hL hS ht hd
    simp [Open, hp, hcfg, hL, hS, ht, hd]
  · intro loc cfg e hp hcfg hLS hd
    rcases hLS with hL | hS
    · cases hS : (loc.Scheme == str "sftp") <;> simp [Open, hp, hcfg, hL, hS, hd]
    · cases hL : (loc.Scheme == str "local") <;> simp [Open, hp, hcfg, hL, hS, hd]
  · intro e
    have := hasSub_append_self (str "unable to open repo at ")
      (StripPassword cb s) (str ": " ++ e)
    simpa [List.append_assoc] using this

/-- Witness for the amended C1: a b2 open failure is reported fatal
with the stripped location in the message. -/
theorem c1_amended_error_redaction_witness :
    Open cbDemo envEmpty (str "T") ⟨1, 2⟩ (str "b2:bkt") =
      .error (.fatal (str "unable to open repo at b2:bkt: b2 connection refused")) :=
  (c1_amended_error_redaction cbDemo envEmpty (str "T") ⟨1, 2⟩ (str "b2:bkt")).2.2.2.1
    { Scheme := str "b2", Config := some (Config.b2C ⟨str "id", str "key", str "b2:bkt"⟩) }
    (Config.b2C ⟨str "id", str "key", str "b2:bkt"⟩)
    (RT.base (str "T")) (str "b2 connection refused")
    (by decide) (by decide) (by decide) (by decide) (by decide) (by decide)

/-- The tail of `Open` on the HTTP path: a collaborator open failure is
wrapped fatal with the stripped location; a handle is returned as-is
(no limiter decorator). -/
def finishPlain (cb : Collab) (s : Str) (r : Except Str Handle) : Except Err Handle :=
  match r with
  | .error e =>
      .error (.fatal (str "unable to open repo at " ++ StripPassword cb s ++ str ": " ++ e))
  | .ok h => .ok h

/-- The tail of `Open` on the non-HTTP path: same error wrapping, but a
returned handle is wrapped with `limiter.LimitBackend`. -/
def finishWrap (cb : Collab) (limits : Limits) (s : Str) (r : Except Str Handle) :
    Except Err Handle :=
  match r with
  | .error e =>
      .error (.fatal (str "unable to open repo at " ++ StripPassword cb s ++ str ": " ++ e))
  | .ok h => .ok (Handle.limitBackend h limits)

/-- Collaborators for the C3 counterexample: the rclone open function
records which limiter value it was handed. -/
def cbC3 : Collab :=
  { cbDemo with
      rcloneOpen := fun _ l =>
        .ok (Handle.mk (if l == (⟨7, 9⟩ : Limits) then str "got-limiter-7-9" else str "other")) }

/-- Counterexample to C3 as stated: `rclone` is neither `local` nor
`sftp`, yet its opener is invoked with the per-call rate limiter
itself (`rclone.Open(cfg, lim)` in the source) and no transport: the
returned handle tracks the `limits` argument, which the opener could
not observe if it were invoked with the wrapped HTTP transport, whose
construction succeeds and is discarded here. -/
theorem c3_counterexample :
    Open cbC3 envEmpty (str "T") ⟨7, 9⟩ (str "rclone:x") =
      .ok (Handle.mk (str "got-limiter-7-9")) ∧
    Open cbC3 envEmpty (str "T") ⟨1, 2⟩ (str "rclone:x") =
      .ok (Handle.mk (str "other")) :=
  ⟨by decide, by decide⟩

/-- C3 amended: for the six HTTP-transported schemes (`s3`, `gs`,
`azure`, `swift`, `b2`, `rest`) the opener receives the transport
wrapped by the limiter built from `limits` and the resulting handle is
not wrapped further; for `local` and `sftp` the opener receives no
transport and the handle is wrapped with the same limiter; for
`rclone` the opener receives the limiter itself (not the transport,
which is built and discarded) and the handle is not wrapped.  The one
`limits` value feeds whichever path is taken. -/
theorem c3_amended_limiter_placement (cb : Collab) (env : Env) (tropts : TrOpts)
    (limits : Limits) (s : Str) (loc : Location) (cfg : Config)
    (hp : parseLocationGo cb s = (loc, none))
    (hcfg : parseConfig cb env loc = .ok cfg) :
    (∀ c, loc.Scheme = str "local" → cfg = Config.localC c →
       Open cb env tropts limits s = finishWrap cb limits s (cb.localOpen c)) ∧
    (∀ c, loc.Scheme = str "sftp" → cfg = Config.sftpC c →
       Open cb env tropts limits s = finishWrap cb limits s (cb.sftpOpen c)) ∧
    (∀ c rt0, loc.Scheme = str "s3" → cfg = Config.s3C c → cb.mkTransport tropts = .ok rt0 →
       Open cb env tropts limits s = finishPlain cb s (cb.s3Open c (RT.limited limits rt0))) ∧
    (∀ c rt0, loc.Scheme = str "gs" → cfg = Config.gsC c → cb.mkTransport tropts = .ok rt0 →
       Open cb env tropts limits s = finishPlain cb s (cb.gsOpen c (RT.limited limits rt0))) ∧
    (∀ c rt0, loc.Scheme = str "azure" → cfg = Config.azureC c →
       cb.mkTransport tropts = .ok rt0 →
       Open cb env tropts limits s = finishPlain cb s (cb.azureOpen c (RT.limited limits rt0))) ∧
    (∀ c rt0, loc.Scheme = str "swift" → cfg = Config.swiftC c →
       cb.mkTransport tropts = .ok rt0 →
       Open cb env tropts limits s = finishPlain cb s (cb.swiftOpen c (RT.limited limits rt0))) ∧
    (∀ c rt0, loc.Scheme = str "b2" → cfg = Config.b2C c → cb.mkTransport tropts = .ok rt0 →
       Open cb env tropts limits s = finishPlain cb s (cb.b2Open c (RT.limited limits rt0))) ∧
    (∀ c rt0, loc.Scheme = str "rest" → cfg = Config.restC c → cb.mkTransport tropts = .ok rt0 →
       Open cb env tropts limits s = finishPlain cb s (cb.restOpen c (RT.limited limits rt0))) ∧
    (∀ c rt0, loc.Scheme = str "rclone" → cfg = Config.rcloneC c →
       cb.mkTransport tropts = .ok rt0 →
       Open cb env tropts limits s = finishPlain cb s (cb.rcloneOpen c limits)) := by
  refine ⟨?_, ?_, ?_, ?_, ?_, ?_, ?_, ?_, ?_⟩
  · intro c hSch hCfg
    subst hCfg
    rcases hr : cb.localOpen c with e | hndl <;>
      simp +decide [Open, hp, hcfg, hSch, dispatchOpen, finishWrap, Except.mapError, hr]
  · intro c hSch hCfg
    subst hCfg
    rcases hr : cb.sftpOpen c with e | hndl <;>
      simp +decide [Open, hp, hcfg, hSch, dispatchOpen, finishWrap, Except.mapError, hr]
  · intro c rt0 hSch hCfg ht
    subst hCfg
    rcases hr : cb.s3Open c (RT.limited limits rt0) with e | hndl <;>
      simp +decide [Open, hp, hcfg, hSch, dispatchOpen, finishPlain, Except.mapError, ht, hr]
  · intro c rt0 hSch hCfg ht
    subst hCfg
    rcases hr : cb.gsOpen c (RT.limited limits rt0) with e | hndl <;>
      simp +decide [Open, hp, hcfg, hSch, dispatchOpen, finishPlain, Except.mapError, ht, hr]
  · intro c rt0 hSch hCfg ht
    subst hCfg
    rcases hr : cb.azureOpen c (RT.limited limits rt0) with e | hndl <;>
      simp +decide [Open, hp, hcfg, hSch, dispatchOpen, finishPlain, Except.mapError, ht, hr]
  · intro c rt0 hSch hCfg ht
    subst hCfg
    rcases hr : cb.swiftOpen c (RT.limited limits rt0) with e | hndl <;>
      simp +decide [Open, hp, hcfg, hSch, dispatchOpen, finishPlain, Except.mapError, ht, hr]
  · intro c rt0 hSch hCfg ht
    subst hCfg
    rcases hr : cb.b2Open c (RT.limited limits rt0) with e | hndl <;>
      simp +decide [Open, hp, hcfg, hSch, dispatchOpen, finishPlain, Except.mapError, ht, hr]
  · intro c rt0 hSch hCfg ht
    subst hCfg
    rcases hr : cb.restOpen c (RT.limited limits rt0) with e | hndl <;>
      simp +decide [Open, hp, hcfg, hSch, dispatchOpen, finishPlain, Except.mapError, ht, hr]
  · intro c rt0 hSch hCfg ht
    subst hCfg
    rcases hr : cb.rcloneOpen c limits with e | hndl <;>
      simp +decide [Open, hp, hcfg, hSch, dispatchOpen, finishPlain, Except.mapError, ht, hr]

/-- Witness for the amended C3 at an s3 location: the handle comes back
exactly as the opener produced it. -/
theorem c3_amended_limiter_placement_witness :
    Open cbDemo envEmpty (str "T") ⟨3, 4⟩ (str "s3:bkt") =
      finishPlain cbDemo (str "s3:bkt")
        (cbDemo.s3Open ⟨[], [], [], str "s3:bkt"⟩ (RT.limited ⟨3, 4⟩ (RT.base (str "T")))) :=
  (c3_amended_limiter_placement cbDemo envEmpty (str "T") ⟨3, 4⟩ (str "s3:bkt")
      { Scheme := str "s3", Config := some (Config.s3C ⟨[], [], [], str "s3:bkt"⟩) }
      (Config.s3C ⟨[], [], [], str "s3:bkt"⟩)
      (by decide) (by decide)).2.2.1
    ⟨[], [], [], str "s3:bkt"⟩ (RT.base (str "T")) (by decide) (by decide) (by decide)

end Restic
